import Mathlib

/-!
# Verification of the aura batched analysis orchestrator

Shallow embedding of the core services of the repository
(`app/services/seo_analyzer.py`, `app/services/llm_analyzer.py`,
`app/services/orchestrator.py`, `app/services/competitive_orchestrator.py`,
`app/services/competitive_orchestrator_sync.py`,
`app/services/comparison_service.py`, `app/services/batch_llm_analyzer.py`)
together with theorems settling the specification claims.

Conventions:
* The scorers' Python floats are embedded as exact rationals (`ℚ`): their
  exact totals are multiples of `1/20` (rule score) and `1/2` (semantic
  score), so the ~1e-13 binary64 error cannot change `round(·, 2)`.  The
  batch-progress callback truncates with `int()`, which is sensitive to
  the final ulp, so its arithmetic is embedded with explicit IEEE-754
  binary64 rounding (`fl64`).
* Python exceptions are embedded as explicit outcome parameters /
  `Except` values.
* Python's `round(x, 2)` (banker's rounding) is embedded exactly.
-/

namespace Aura

/-- Job and batch status values, from `AnalysisStatus` in
`app/models/analysis.py`. -/
inductive AStatus where
  | pending
  | processing
  | completed
  | failed
deriving DecidableEq

/-- One recommendation entry as produced by the analyzers: dictionaries of
the shape `{category, priority, title, description, impact}`. -/
structure Suggestion where
  category : String
  priority : String
  title : String
  description : String
  impact : String
deriving DecidableEq

/-! ## Rule scorer (`app/services/seo_analyzer.py`) -/

/-- A JSON `@type` value inside a structured-data entry: either a string or
a list of strings (the two shapes `_analyze_structured_data` handles). -/
inductive TypeVal where
  | str (s : String)
  | list (ss : List String)
deriving DecidableEq

/-- One JSON-LD structured-data object, reduced to the only key the
analyzer reads: `item.get('@type', '')`. -/
structure SDItem where
  atType : TypeVal
deriving DecidableEq

/-- The `crawl_data['headings']` dictionary with keys `h1`..`h6`. -/
structure Headings where
  h1 : List String
  h2 : List String
  h3 : List String
  h4 : List String
  h5 : List String
  h6 : List String
deriving DecidableEq

/-- Python `headings.get(f'h{level}', [])`. -/
def Headings.level (h : Headings) : Nat → List String
  | 1 => h.h1
  | 2 => h.h2
  | 3 => h.h3
  | 4 => h.h4
  | 5 => h.h5
  | 6 => h.h6
  | _ => []

/-- The `crawl_data` dictionary fields read by `SEOAnalyzer.analyze`. -/
structure PageSnapshot where
  metaTags : List (String × String)
  headings : Headings
  loadTime : ℚ
  mobileFriendly : Bool
  sslEnabled : Bool
  structuredData : List SDItem

/-- Python `meta_tags.get(key, '')` (a dict has unique keys; the embedding
reads the first matching entry). -/
def metaGet (m : List (String × String)) (key : String) : String :=
  match m.find? (fun kv => kv.1 == key) with
  | some kv => kv.2
  | none => ""

/-- Python `key in meta_tags`. -/
def metaHasKey (m : List (String × String)) (key : String) : Bool :=
  m.any (fun kv => kv.1 == key)

/-- Python `s.startswith(pre)`, computed on the character lists (Lean's
byte-position based `String.startsWith` does not reduce in the kernel). -/
def strStartsWith (s pre : String) : Bool :=
  pre.toList.isPrefixOf s.toList

/-- Count of `[k for k in meta_tags.keys() if k.startswith('og:')]`. -/
def ogTagCount (m : List (String × String)) : Nat :=
  (m.filter (fun kv => strStartsWith kv.1 "og:")).length

/-- Python `round(x)`: round half to even (banker's rounding). -/
def pyRound (x : ℚ) : ℤ :=
  let f := ⌊x⌋
  let r := x - (f : ℚ)
  if r < 1/2 then f
  else if r > 1/2 then f + 1
  else if f % 2 = 0 then f else f + 1

/-- Python `round(x, 2)`. -/
def round2 (x : ℚ) : ℚ :=
  (pyRound (x * 100) : ℚ) / 100

/-- Result of one category analysis: score plus collected issue strings and
recommendations. -/
structure CategoryAnalysis where
  score : Nat
  issues : List String
  recommendations : List Suggestion
deriving DecidableEq

/-- Embeds `SEOAnalyzer._analyze_meta_tags`.  Score starts at 0; title and
description contribute up to 40 points each, Open Graph tags up to 10,
canonical up to 10; capped at 100. -/
def analyzeMetaTags (metaTags : List (String × String)) : CategoryAnalysis :=
  let title := metaGet metaTags "title"
  let titlePart : Nat × List String × List Suggestion :=
    if title = "" then
      (0, ["Missing title tag"],
        [⟨"seo", "critical", "Add Title Tag",
          "Every page must have a unique, descriptive title tag (30-60 characters)",
          "high"⟩])
    else if title.length < 30 then
      (20, ["Title too short (" ++ toString title.length ++ " chars, recommended: 30-60)"],
        [⟨"seo", "high", "Expand Title Tag",
          "Your title is only " ++ toString title.length ++
            " characters. Expand it to 30-60 characters for better SEO.",
          "medium"⟩])
    else if title.length > 60 then
      (30, ["Title too long (" ++ toString title.length ++ " chars, recommended: 30-60)"],
        [⟨"seo", "medium", "Shorten Title Tag",
          "Your title is " ++ toString title.length ++
            " characters. Shorten it to 60 characters or less to avoid truncation in search results.",
          "medium"⟩])
    else (40, [], [])
  let description := metaGet metaTags "description"
  let descriptionPart : Nat × List String × List Suggestion :=
    if description = "" then
      (0, ["Missing meta description"],
        [⟨"seo", "high", "Add Meta Description",
          "Add a compelling meta description (120-160 characters) to improve click-through rates from search results.",
          "high"⟩])
    else if description.length < 120 then
      (20, ["Description too short (" ++ toString description.length ++ " chars)"],
        [⟨"seo", "medium", "Expand Meta Description",
          "Your meta description is only " ++ toString description.length ++
            " characters. Expand it to 120-160 characters for better engagement.",
          "medium"⟩])
    else if description.length > 160 then
      (30, ["Description too long (" ++ toString description.length ++ " chars)"], [])
    else (40, [], [])
  let ogPart : Nat × List Suggestion :=
    if ogTagCount metaTags ≥ 4 then (10, [])
    else if ogTagCount metaTags > 0 then
      (5, [⟨"seo", "low", "Complete Open Graph Tags",
        "Add complete Open Graph tags (og:title, og:description, og:image, og:url) to improve social media sharing.",
        "low"⟩])
    else
      (0, [⟨"seo", "medium", "Add Open Graph Tags",
        "Add Open Graph meta tags to control how your content appears when shared on social media platforms.",
        "medium"⟩])
  let canonicalPart : Nat × List Suggestion :=
    if metaHasKey metaTags "canonical" then (10, [])
    else
      (0, [⟨"seo", "low", "Add Canonical URL",
        "Add a canonical link tag to prevent duplicate content issues.",
        "low"⟩])
  { score := min (titlePart.1 + descriptionPart.1 + ogPart.1 + canonicalPart.1) 100
    issues := titlePart.2.1 ++ descriptionPart.2.1
    recommendations :=
      titlePart.2.2 ++ descriptionPart.2.2 ++ ogPart.2 ++ canonicalPart.2 }

/-- Embeds `SEOAnalyzer._analyze_headings`.  Score starts at 100 and is reduced for
missing/multiple `h1`, missing `h2`, and hierarchy gaps; floored at 0. -/
def analyzeHeadings (headings : Headings) : CategoryAnalysis :=
  let h1Count := headings.h1.length
  let h2Count := headings.h2.length
  let h1Part : Int × List String × List Suggestion :=
    if h1Count = 0 then
      (50, ["Missing H1 tag"],
        [⟨"seo", "critical", "Add H1 Heading",
          "Every page must have exactly one H1 tag that describes the main topic.",
          "high"⟩])
    else if h1Count > 1 then
      (20, ["Multiple H1 tags found (" ++ toString h1Count ++ "), should have only one"],
        [⟨"seo", "high", "Use Single H1 Tag",
          "You have " ++ toString h1Count ++ " H1 tags. Use only one H1 per page for better SEO.",
          "medium"⟩])
    else (0, [], [])
  let h2Part : Int × List String × List Suggestion :=
    if h2Count = 0 ∧ h1Count > 0 then
      (30, ["No H2 tags found - consider adding subheadings"],
        [⟨"seo", "medium", "Add H2 Subheadings",
          "Add H2 tags to structure your content with clear subheadings.",
          "medium"⟩])
    else (0, [], [])
  -- first level i in 1..5 with `h{i+1}` present but `h{i}` absent (the
  -- Python loop breaks at the first hit)
  let badLevel : Option Nat :=
    [1, 2, 3, 4, 5].find? fun i =>
      (headings.level (i + 1)).length > 0 && (headings.level i).length == 0
  let hierarchyPart : Int × List String × List Suggestion :=
    match badLevel with
    | some i =>
      (20, ["Heading hierarchy issue: H" ++ toString (i + 1) ++ " found without H" ++ toString i],
        [⟨"seo", "low", "Fix Heading Hierarchy",
          "Maintain proper heading hierarchy (H1 → H2 → H3) without skipping levels.",
          "low"⟩])
    | none => (0, [], [])
  { score := (max (100 - h1Part.1 - h2Part.1 - hierarchyPart.1) 0).toNat
    issues := h1Part.2.1 ++ h2Part.2.1 ++ hierarchyPart.2.1
    recommendations := h1Part.2.2 ++ h2Part.2.2 ++ hierarchyPart.2.2 }

/-- Display-only stand-in for Python's `f"{load_time:.2f}"` formatting; the
claims never constrain these strings. -/
def formatSeconds (q : ℚ) : String :=
  toString q

/-- Embeds `SEOAnalyzer._analyze_performance`: load-time thresholds 2.0 / 3.0 /
5.0 seconds map to scores 100 / 80 / 50 / 20. -/
def analyzePerformance (loadTime : ℚ) : CategoryAnalysis :=
  if loadTime < 2 then
    { score := 100, issues := [], recommendations := [] }
  else if loadTime < 3 then
    { score := 80
      issues := ["Page load time (" ++ formatSeconds loadTime ++ "s) is acceptable but could be improved"]
      recommendations :=
        [⟨"seo", "low", "Optimize Page Speed",
          "Your page loads in " ++ formatSeconds loadTime ++
            " seconds. Consider optimizing images and minifying resources to reach under 2 seconds.",
          "low"⟩] }
  else if loadTime < 5 then
    { score := 50
      issues := ["Page load time (" ++ formatSeconds loadTime ++ "s) is slow"]
      recommendations :=
        [⟨"seo", "high", "Improve Page Speed",
          "Your page takes " ++ formatSeconds loadTime ++
            " seconds to load. Optimize images, enable caching, and minify CSS/JS to improve speed.",
          "high"⟩] }
  else
    { score := 20
      issues := ["Page load time (" ++ formatSeconds loadTime ++ "s) is very slow"]
      recommendations :=
        [⟨"seo", "critical", "Critical: Fix Page Speed",
          "Your page takes " ++ formatSeconds loadTime ++
            " seconds to load, which severely impacts SEO and user experience. Prioritize speed optimization.",
          "critical"⟩] }

/-- Embeds `SEOAnalyzer._analyze_mobile`: 100 iff viewport meta tag present. -/
def analyzeMobile (mobileFriendly : Bool) : Nat × List Suggestion :=
  if mobileFriendly then (100, [])
  else
    (0, [⟨"seo", "critical", "Add Viewport Meta Tag",
      "Add <meta name=\"viewport\" content=\"width=device-width, initial-scale=1\"> to make your site mobile-friendly. Mobile-first indexing requires this.",
      "critical"⟩])

/-- Embeds `SEOAnalyzer._analyze_security`: 100 iff the site uses HTTPS. -/
def analyzeSecurity (sslEnabled : Bool) : Nat × List Suggestion :=
  if sslEnabled then (100, [])
  else
    (0, [⟨"seo", "critical", "Enable HTTPS",
      "Switch to HTTPS to secure your site. Google prioritizes HTTPS sites in search rankings and browsers mark HTTP sites as \"Not Secure\".",
      "critical"⟩])

/-- The recognized Schema.org types from `_analyze_structured_data`. -/
def validSchemaTypes : List String :=
  ["Organization", "WebSite", "Article", "Product", "LocalBusiness", "FAQPage", "BreadcrumbList"]

/-- The type string the analyzer extracts from one entry:
`item.get('@type', '')`, and for a list value `item_type[0] if item_type
else ''`. -/
def extractType : TypeVal → String
  | .str s => s
  | .list [] => ""
  | .list (t :: _) => t

/-- Embeds `SEOAnalyzer._analyze_structured_data`: 0 for no structured data, 100
if any entry has a recognized type, else 50. -/
def analyzeStructuredData (structuredData : List SDItem) : Nat × List Suggestion :=
  if structuredData.isEmpty then
    (0, [⟨"seo", "medium", "Add Structured Data",
      "Add Schema.org structured data (JSON-LD) to help search engines understand your content better and enable rich snippets.",
      "medium"⟩])
  else if structuredData.any (fun item => validSchemaTypes.contains (extractType item.atType)) then
    (100, [])
  else
    (50, [⟨"seo", "low", "Improve Structured Data",
      "Consider adding more specific schema types like Organization, Product, or Article for better search engine understanding.",
      "low"⟩])

/-- The per-category sub-scores returned in `category_scores`. -/
structure CategoryScores where
  metaTags : Nat
  headings : Nat
  performance : Nat
  mobile : Nat
  security : Nat
  structuredData : Nat
deriving DecidableEq

/-- Output of `SEOAnalyzer.analyze` (metrics echo of the input elided). -/
structure SEOResult where
  score : ℚ
  categoryScores : CategoryScores
  issues : List String
  recommendations : List Suggestion

/-- Embeds `SEOAnalyzer.analyze`: runs the six category analyses, concatenates
issues and recommendations in category order, and computes the overall
score as the weighted sum of sub-scores (weights from
`SEOAnalyzer.WEIGHTS`), rounded to two decimals. -/
def analyze (s : PageSnapshot) : SEOResult :=
  let meta := analyzeMetaTags s.metaTags
  let heading := analyzeHeadings s.headings
  let perf := analyzePerformance s.loadTime
  let mobile := analyzeMobile s.mobileFriendly
  let security := analyzeSecurity s.sslEnabled
  let sd := analyzeStructuredData s.structuredData
  let totalScore : ℚ :=
    (meta.score : ℚ) * (25/100) + (heading.score : ℚ) * (15/100) +
      (perf.score : ℚ) * (20/100) + (mobile.1 : ℚ) * (15/100) +
      (security.1 : ℚ) * (10/100) + (sd.1 : ℚ) * (15/100)
  { score := round2 totalScore
    categoryScores :=
      { metaTags := meta.score
        headings := heading.score
        performance := perf.score
        mobile := mobile.1
        security := security.1
        structuredData := sd.1 }
    issues := meta.issues ++ heading.issues ++ perf.issues
    recommendations :=
      meta.recommendations ++ heading.recommendations ++ perf.recommendations ++
        mobile.2 ++ security.2 ++ sd.2 }

/-! ## Semantic scorer (`app/services/llm_analyzer.py`) -/

/-- Structured report parsed from the LLM response
(`what_it_does`, `products_services`, `target_audience`, `unique_value`,
`clarity_score`, `overall_impression`); absent fields default to `''`. -/
structure LLMReport where
  whatItDoes : String
  productsServices : String
  targetAudience : String
  uniqueValue : String
  clarityScore : ℤ
  overallImpression : String

/-- Python `s.lower()` as a character list (the penalty keywords are all
ASCII, where `Char.toLower` agrees with Python). -/
def lowerChars (s : String) : List Char :=
  s.toList.map Char.toLower

/-- Occurrence of `needle` as a contiguous sublist of `haystack`. -/
def subOccurs (needle haystack : List Char) : Bool :=
  match haystack with
  | [] => needle.isEmpty
  | _ :: rest => needle.isPrefixOf haystack || subOccurs needle rest

/-- Python `word in text` substring containment on character lists. -/
def containsSub (text : List Char) (word : String) : Bool :=
  subOccurs word.toList text

/-- The four `required_fields` of `_calculate_aeo_score`, in loop order. -/
def requiredFields (r : LLMReport) : List String :=
  [r.whatItDoes, r.productsServices, r.targetAudience, r.uniqueValue]

/-- Completeness bonus loop of `_calculate_aeo_score`: 7.5 points for each
required field that is truthy and longer than 20 characters. -/
def completenessScore (r : LLMReport) : ℚ :=
  (requiredFields r).foldl
    (fun acc value => if value ≠ "" ∧ value.length > 20 then acc + 15/2 else acc) 0

/-- Penalty of `_calculate_aeo_score`: 10 if the lowercased
`overall_impression` contains a severe keyword, else 5 if it contains a
milder one, else 0. -/
def aeoPenalty (r : LLMReport) : ℚ :=
  let overallImpression := lowerChars r.overallImpression
  if ["unclear", "confusing", "vague", "difficult"].any
      (fun w => containsSub overallImpression w) then 10
  else if ["missing", "lacking", "insufficient"].any
      (fun w => containsSub overallImpression w) then 5
  else 0

/-- Embeds `LLMAnalyzer._calculate_aeo_score`: base from clarity, plus
completeness bonus, minus penalty, clamped to `[0, 100]` and rounded to
two decimals. -/
def calculateAeoScore (r : LLMReport) : ℚ :=
  let baseScore : ℚ := ((r.clarityScore : ℚ) / 10) * 70
  let finalScore := baseScore + completenessScore r - aeoPenalty r
  round2 (min (max finalScore 0) 100)

/-- Modelled from the claim's words, for comparison with
`calculateAeoScore`: `(clarity_score/10)*70`, plus 7.5 for each of the four
narrative fields whose value is present and longer than 20 characters
(max 30), minus 10 / minus 5 for the two keyword groups, clamped to
`[0, 100]`, rounded to two decimals. -/
def aeoScoreSpec (r : LLMReport) : ℚ :=
  let base : ℚ := ((r.clarityScore : ℚ) / 10) * 70
  let bonus : ℚ :=
    min ((15/2) * ((requiredFields r).countP
      (fun value => decide (value ≠ "" ∧ value.length > 20)))) 30
  round2 (min (max (base + bonus - aeoPenalty r) 0) 100)

/-! ## Suggestion merging (`AnalysisOrchestrator._save_results`) -/

/-- The `priority_order` dictionary lookup
`{'critical': 0, 'high': 1, 'medium': 2, 'low': 3}.get(priority, 3)`. -/
def priorityRank (p : String) : Nat :=
  if p == "critical" then 0
  else if p == "high" then 1
  else if p == "medium" then 2
  else 3

/-- Sort key comparison used for merging recommendations. -/
def suggLE (a b : Suggestion) : Prop :=
  priorityRank a.priority ≤ priorityRank b.priority

instance : DecidableRel suggLE :=
  fun a b => Nat.decLe (priorityRank a.priority) (priorityRank b.priority)

instance : IsTotal Suggestion suggLE :=
  ⟨fun a b => Nat.le_total (priorityRank a.priority) (priorityRank b.priority)⟩

instance : IsTrans Suggestion suggLE :=
  ⟨fun _ _ _ h h2 => Nat.le_trans h h2⟩

/-- Embeds the suggestion merge of `_save_results`: concatenate SEO and AEO
recommendations and sort by the priority key.  Python's `list.sort` is a
stable sort; a stable sort's output is uniquely determined by the key, so
insertion sort is a faithful model of it. -/
def mergeRecommendations (seoRecs aeoRecs : List Suggestion) : List Suggestion :=
  List.insertionSort suggLE (seoRecs ++ aeoRecs)

/-! ## Single-URL pipeline (`app/services/orchestrator.py`) -/

/-- Failure points of the pipeline: the fallible external operations
(crawl, LLM call, persistence), each carrying an exception message. -/
inductive StageFailure where
  | crawl (msg : String)
  | llm (msg : String)
  | save (msg : String)

/-- The persisted columns of one `AnalysisRequest` row that the
orchestrator mutates. -/
structure JobRow where
  status : AStatus
  currentStep : String
  progress : Nat
  errorMessage : Option String
  errorType : Option String
  errorStep : Option String
  errorProgress : Option Nat
deriving DecidableEq

/-- A freshly created request row (`models/analysis.py` defaults:
PENDING, progress 0). -/
def initialJobRow : JobRow :=
  { status := .pending, currentStep := "", progress := 0,
    errorMessage := none, errorType := none, errorStep := none,
    errorProgress := none }

/-- Embeds `AnalysisOrchestrator._update_progress` (step and progress
columns; the commit and callback carry no further row state). -/
def updateProgressRow (r : JobRow) (step : String) (progress : Nat) : JobRow :=
  { r with currentStep := step, progress := progress }

/-- Embeds `AnalysisOrchestrator._update_status`. -/
def updateStatusRow (r : JobRow) (status : AStatus) (step : String)
    (progress : Nat) : JobRow :=
  { r with status := status, currentStep := step, progress := progress }

/-- Embeds `AnalysisOrchestrator._handle_error`: sets FAILED and the error
columns; `error_details` records the step and the progress at failure.
The `progress` column itself is not touched. -/
def handleErrorRow (r : JobRow) (errType msg : String) : JobRow :=
  { r with
    status := .failed
    errorMessage := some msg
    errorType := some errType
    errorStep := some r.currentStep
    errorProgress := some r.progress }

/-- Embeds `AnalysisOrchestrator.run_analysis` as the sequence of persisted
row states, parameterised by which fallible stage (if any) raises. -/
def runAnalysisJob (outcome : Option StageFailure) : List JobRow :=
  let r0 := updateStatusRow initialJobRow .processing "Starting analysis" 0
  let r1 := updateProgressRow r0 "Crawling website" 10
  let r2 := updateProgressRow r1 "Crawl completed" 30
  let r3 := updateProgressRow r2 "Analyzing SEO metrics" 35
  let r4 := updateProgressRow r3 "SEO analysis completed" 60
  let r5 := updateProgressRow r4 "Running AI analysis" 65
  let r6 := updateProgressRow r5 "AI analysis completed" 90
  let r7 := updateProgressRow r6 "Saving results" 95
  match outcome with
  | some (.crawl m) => [r0, r1, handleErrorRow r1 "CrawlerException" m]
  | some (.llm m) => [r0, r1, r2, r3, r4, r5, handleErrorRow r5 "LLMAnalysisException" m]
  | some (.save m) => [r0, r1, r2, r3, r4, r5, r6, r7, handleErrorRow r7 "Exception" m]
  | none =>
      [r0, r1, r2, r3, r4, r5, r6, r7,
        updateStatusRow r7 .completed "Analysis completed" 100]

/-- The final persisted row of a pipeline run. -/
def finalJobRow (outcome : Option StageFailure) : JobRow :=
  (runAnalysisJob outcome).getLastD initialJobRow

/-! ## Batch pipeline (`app/services/competitive_orchestrator_sync.py`) -/

/-- The persisted columns of one batch row that the orchestrator mutates
(`models/competitive.py` defaults: PENDING, progress 0, counts 0). -/
structure BatchRow where
  status : AStatus
  progress : Nat
  completedCount : Nat
  failedCount : Nat
  errorMessage : Option String
deriving DecidableEq

/-- A freshly created batch row. -/
def initialBatchRow : BatchRow :=
  { status := .pending, progress := 0, completedCount := 0,
    failedCount := 0, errorMessage := none }

/-- Embeds `CompetitiveOrchestratorSync._finalize_batch`: sets the final
status, progress 100 and both counts; the error message is only written
when one is supplied. -/
def finalizeBatch (b : BatchRow) (status : AStatus)
    (completedCount failedCount : Nat) (errorMessage : Option String) : BatchRow :=
  { b with
    status := status
    progress := 100
    completedCount := completedCount
    failedCount := failedCount
    errorMessage :=
      match errorMessage with
      | some m => some m
      | none => b.errorMessage }

/-- Count of per-URL results with `status == 'completed'`. -/
def countCompleted (urlResults : List Bool) : Nat :=
  (urlResults.filter (fun r => r)).length

/-- Final outcome of a batch run: the batch row and whether a comparison
row was persisted. -/
structure BatchOutcome where
  batch : BatchRow
  comparisonPersisted : Bool
deriving DecidableEq

/-- Embeds `CompetitiveOrchestratorSync.run_analysis` as a function of the
per-URL success flags and of the aggregation outcome (`agg` models
`_generate_comparison_sync`, i.e. `ComparisonService.generate_comparison`
including its single narrative LLM call, which re-raises on persistent
failure: `BatchLLMAnalyzer.analyze_competitive_landscape` retries with
`reraise=True` and `generate_comparison` re-raises in its handler before
anything is persisted).  Intermediate progress writes (5/10/80/95) touch
only the progress column and are elided; any exception lands in the
handler, which finalizes FAILED with the *default* counts 0/0 and the
truncated exception text.  The batch id inside the no-URLs message is
elided. -/
def runAnalysisSync (urlResults : List Bool) (agg : Except String Unit) :
    BatchOutcome :=
  let processing : BatchRow :=
    { initialBatchRow with status := .processing, progress := 10 }
  if urlResults.isEmpty then
    { batch := finalizeBatch processing .failed 0 0 (some "No URLs found for batch"),
      comparisonPersisted := false }
  else
    let completedCount := countCompleted urlResults
    let failedCount := urlResults.length - completedCount
    -- step 4 runs the aggregator only when at least two URLs completed;
    -- step 5 then decides the final status (the `0` / `≥ 2` / `else`
    -- trichotomy of the source, reordered so that the aggregation
    -- exception path comes first)
    if 2 ≤ completedCount then
      match agg with
      | .error m =>
        { batch := finalizeBatch processing .failed 0 0 (some (m.take 500)),
          comparisonPersisted := false }
      | .ok _ =>
        { batch := finalizeBatch processing .completed completedCount failedCount none,
          comparisonPersisted := true }
    else if completedCount = 0 then
      { batch := finalizeBatch processing .failed completedCount failedCount
          (some "All URL analyses failed"),
        comparisonPersisted := false }
    else
      { batch := finalizeBatch processing .failed completedCount failedCount
          (some "Insufficient successful analyses (minimum 2 required)"),
        comparisonPersisted := false }

/-! ## Batch progress aggregation (`CompetitiveOrchestrator._create_individual_progress_callback`) -/

/-- One rounding step of IEEE-754 binary64 arithmetic (Python floats):
round the exact rational value to 53 significand bits, to nearest, ties
to even (`pyRound` realizes round-half-to-even on the scaled integer
grid).  Overflow and subnormals are not modelled; every value reached by
the progress callback lies well inside the normal range. -/
def fl64 (x : ℚ) : ℚ :=
  if x = 0 then 0
  else
    (if x < 0 then -1 else 1) *
      (pyRound (|x| / 2 ^ (Int.log 2 |x| - 52)) : ℚ) * 2 ^ (Int.log 2 |x| - 52)

/-- Embeds the aggregate computed inside `individual_progress`:
`int(base_contribution + current_contribution)` with
`base_contribution = (url_index / total_urls) * 100` (the outer `fl64`
pair) and
`current_contribution = (url_progress / 100) * (1 / total_urls) * 100`
(the inner `fl64` chain, left-associated), each Python float division,
multiplication and addition rounding its exact result through `fl64`.
All values are non-negative, so `int()` truncation is the floor. -/
def aggregateProgress (urlIndex totalUrls urlProgress : Nat) : ℤ :=
  ⌊fl64 (fl64 (fl64 ((urlIndex : ℚ) / (totalUrls : ℚ)) * 100) +
      fl64 (fl64 (fl64 ((urlProgress : ℚ) / 100) * fl64 (1 / (totalUrls : ℚ))) * 100))⌋

/-- The batch-level progress actually broadcast:
`min(aggregate_progress, 99)`. -/
def publishedBatchProgress (urlIndex totalUrls urlProgress : Nat) : ℤ :=
  min (aggregateProgress urlIndex totalUrls urlProgress) 99

/-- Modelled from the claim's words, for comparison with
`publishedBatchProgress`: `floor(Σ child_progress / total)` clamped
at 99. -/
def claimedBatchProgress (childProgress : List Nat) (totalUrls : Nat) : ℤ :=
  min ⌊((childProgress.sum : ℚ) / (totalUrls : ℚ))⌋ 99

/-! ## Concrete scenario (spec §8, end-to-end scenario 1) -/

/-- The scenario-1 snapshot: 29-character title, 136-character description,
one `h1`, one `h2`, 1.5 s load time, viewport present, https, structured
data `[{"@type": "Organization"}]`, no Open Graph tags, no canonical. -/
def scenario1 : PageSnapshot :=
  { metaTags :=
      [("title", "Example Domain Reference Page"),
       ("description", "This domain is for use in illustrative examples in documents. You may use this domain in literature without prior coordination or asking")]
    headings :=
      { h1 := ["Example Domain"], h2 := ["About this page"],
        h3 := [], h4 := [], h5 := [], h6 := [] }
    loadTime := 3/2
    mobileFriendly := true
    sslEnabled := true
    structuredData := [⟨.str "Organization"⟩] }

set_option maxRecDepth 8000

/-- Meta analysis of the scenario-1 snapshot: the 29-character title falls
in the `< 30` branch (+20), the 136-character description in the optimal
branch (+40); no Open Graph tags, no canonical. -/
lemma scenario1_meta : analyzeMetaTags scenario1.metaTags =
    { score := 60
      issues := ["Title too short (29 chars, recommended: 30-60)"]
      recommendations :=
        [⟨"seo", "high", "Expand Title Tag",
          "Your title is only 29 characters. Expand it to 30-60 characters for better SEO.", "medium"⟩,
         ⟨"seo", "medium", "Add Open Graph Tags",
          "Add Open Graph meta tags to control how your content appears when shared on social media platforms.", "medium"⟩,
         ⟨"seo", "low", "Add Canonical URL",
          "Add a canonical link tag to prevent duplicate content issues.", "low"⟩] } := by
  decide

lemma scenario1_headings : analyzeHeadings scenario1.headings =
    { score := 100, issues := [], recommendations := [] } := by
  decide

lemma scenario1_performance : analyzePerformance scenario1.loadTime =
    { score := 100, issues := [], recommendations := [] } := by
  rw [scenario1, analyzePerformance, if_pos (by norm_num)]

lemma scenario1_structuredData :
    analyzeStructuredData scenario1.structuredData = (100, []) := by
  decide

lemma scenario1_categoryScores :
    (analyze scenario1).categoryScores = ⟨60, 100, 100, 100, 100, 100⟩ := by
  simp only [analyze]
  rw [scenario1_meta, scenario1_headings, scenario1_performance, scenario1_structuredData]
  decide

/-- Relation of the overall score to the category sub-scores (shared with
the weighted-sum claim). -/
lemma analyze_score_eq_weighted (s : PageSnapshot) :
    (analyze s).score =
      round2 (((analyze s).categoryScores.metaTags : ℚ) * (25/100) +
        ((analyze s).categoryScores.headings : ℚ) * (15/100) +
        ((analyze s).categoryScores.performance : ℚ) * (20/100) +
        ((analyze s).categoryScores.mobile : ℚ) * (15/100) +
        ((analyze s).categoryScores.security : ℚ) * (10/100) +
        ((analyze s).categoryScores.structuredData : ℚ) * (15/100)) := rfl

lemma scenario1_score : (analyze scenario1).score = 90 := by
  have h : (analyze scenario1).score =
      round2 ((60 : ℚ) * (25/100) + 100 * (15/100) + 100 * (20/100) +
        100 * (15/100) + 100 * (10/100) + 100 * (15/100)) := by
    rw [analyze_score_eq_weighted, scenario1_categoryScores]
    norm_num
  rw [h]
  rw [show ((60 : ℚ) * (25/100) + 100 * (15/100) + 100 * (20/100) +
        100 * (15/100) + 100 * (10/100) + 100 * (15/100)) = 90 by norm_num]
  rw [round2, pyRound]
  norm_num

/-! ## Claim C3 -/

/-- C3: for every `PageSnapshot`, the overall rule score equals the
weighted sum of the six category sub-scores with fixed weights
meta 0.25, headings 0.15, performance 0.20, mobile 0.15, security 0.10,
structured-data 0.15, rounded to two decimals. -/
theorem C3_rule_score_weighted_sum (s : PageSnapshot) :
    (analyze s).score =
      round2 (((analyze s).categoryScores.metaTags : ℚ) * (25/100) +
        ((analyze s).categoryScores.headings : ℚ) * (15/100) +
        ((analyze s).categoryScores.performance : ℚ) * (20/100) +
        ((analyze s).categoryScores.mobile : ℚ) * (15/100) +
        ((analyze s).categoryScores.security : ℚ) * (10/100) +
        ((analyze s).categoryScores.structuredData : ℚ) * (15/100)) :=
  analyze_score_eq_weighted s

/-! ## Claim C9 -/

/-- C9 (counterexample): the scenario-1 snapshot does not get meta
sub-score 80 and overall rule score 95.00 — the 29-character title earns
+20, not +40, so meta is 60 and the overall score is 90.00. -/
theorem C9_scenario1_counterexample :
    ¬ ((analyze scenario1).categoryScores.metaTags = 80 ∧
       (analyze scenario1).score = 95) := by
  rintro ⟨h, _⟩
  rw [scenario1_categoryScores] at h
  exact absurd h (by decide)

/-- C9 (amended): the scenario-1 snapshot gets category sub-scores
meta 60, headings 100, performance 100, mobile 100, security 100,
structured-data 100, and an overall rule score of exactly 90.00. -/
theorem C9_scenario1_amended :
    (analyze scenario1).categoryScores = ⟨60, 100, 100, 100, 100, 100⟩ ∧
    (analyze scenario1).score = 90 :=
  ⟨scenario1_categoryScores, scenario1_score⟩

/-! ## Claim C10 -/

lemma any_valid_iff (sd : List SDItem)
    (hl : ∀ item ∈ sd, ∃ ts, item.atType = TypeVal.list ts) :
    (sd.any fun item => validSchemaTypes.contains (extractType item.atType)) = true ↔
      ∃ item ∈ sd, ∃ t ts, item.atType = TypeVal.list (t :: ts) ∧ t ∈ validSchemaTypes := by
  rw [List.any_eq_true]
  constructor
  · rintro ⟨item, hmem, hP⟩
    obtain ⟨ts, hts⟩ := hl item hmem
    cases ts with
    | nil => rw [hts] at hP; simp [extractType, validSchemaTypes] at hP
    | cons t ts2 =>
      refine ⟨item, hmem, t, ts2, hts, ?_⟩
      rw [hts] at hP
      simpa [extractType] using hP
  · rintro ⟨item, hmem, t, ts2, hts, htv⟩
    refine ⟨item, hmem, ?_⟩
    rw [hts]
    simpa [extractType] using htv

/-- C10: for snapshots whose structured-data entries all carry a
list-valued `@type`, the structured-data sub-score is decided by the first
element of each list: 100 iff some entry's list starts with a recognized
type (an empty list can never match, its extracted type is `''`), and 50
when no entry matches (the list of entries being non-empty). -/
theorem C10_structured_data_list_type (sd : List SDItem) (hne : sd ≠ [])
    (hl : ∀ item ∈ sd, ∃ ts, item.atType = TypeVal.list ts) :
    ((analyzeStructuredData sd).1 = 100 ↔
      ∃ item ∈ sd, ∃ t ts, item.atType = TypeVal.list (t :: ts) ∧ t ∈ validSchemaTypes) ∧
    ((¬ ∃ item ∈ sd, ∃ t ts, item.atType = TypeVal.list (t :: ts) ∧ t ∈ validSchemaTypes) →
      (analyzeStructuredData sd).1 = 50) := by
  have hempty : sd.isEmpty = false := by
    simpa [List.isEmpty_iff] using hne
  rw [analyzeStructuredData, hempty]
  by_cases hA : (sd.any fun item => validSchemaTypes.contains (extractType item.atType)) = true
  · rw [if_neg (by simp), if_pos hA]
    constructor
    · simpa using (any_valid_iff sd hl).mp hA
    · intro hno
      exact absurd ((any_valid_iff sd hl).mp hA) hno
  · rw [if_neg (by simp), if_neg hA]
    constructor
    · constructor
      · intro h; exact absurd h (by decide)
      · intro hex
        exact absurd ((any_valid_iff sd hl).mpr hex) hA
    · intro _; rfl

/-- C10 (witness): a concrete snapshot with one empty-list `@type` entry
and one `["Organization", "Thing"]` entry scores 100. -/
theorem C10_structured_data_witness :
    [(⟨.list []⟩ : SDItem), ⟨.list ["Organization", "Thing"]⟩] ≠ [] ∧
    (analyzeStructuredData [⟨.list []⟩, ⟨.list ["Organization", "Thing"]⟩]).1 = 100 := by
  constructor
  · decide
  · refine ((C10_structured_data_list_type
      [⟨.list []⟩, ⟨.list ["Organization", "Thing"]⟩] (by decide) ?_).1).mpr ?_
    · intro item hmem
      rcases List.mem_cons.mp hmem with h | hmem2
      · exact ⟨[], by rw [h]⟩
      · rcases List.mem_cons.mp hmem2 with h | h
        · exact ⟨["Organization", "Thing"], by rw [h]⟩
        · exact absurd h (List.not_mem_nil item)
    · exact ⟨⟨.list ["Organization", "Thing"]⟩, by simp, "Organization", ["Thing"], rfl, by decide⟩

/-! ## Claim C4 -/

/-- C4: the numeric semantic score equals `(clarity_score/10)*70`, plus
7.5 for each of the four narrative fields whose value is present and
longer than 20 characters (max 30), minus 10 for the severe keyword group
in the lowercased `overall_impression`, otherwise minus 5 for the milder
group, clamped to `[0, 100]` and rounded to two decimals. -/
theorem C4_semantic_score_formula (r : LLMReport) :
    calculateAeoScore r = aeoScoreSpec r := by
  rw [calculateAeoScore, aeoScoreSpec]
  have hcnt : ((requiredFields r).countP
      (fun value => decide (value ≠ "" ∧ value.length > 20))) ≤ 4 := by
    have := List.countP_le_length
      (p := fun value => decide (value ≠ "" ∧ value.length > 20)) (l := requiredFields r)
    simpa [requiredFields] using this
  have hbonus : completenessScore r =
      (15/2 : ℚ) * ((requiredFields r).countP
        (fun value => decide (value ≠ "" ∧ value.length > 20))) := by
    rw [completenessScore]
    simp only [requiredFields, List.foldl, List.countP_cons, List.countP_nil,
      decide_eq_true_eq]
    split_ifs <;> push_cast <;> ring
  have hmin : min ((15/2 : ℚ) * ((requiredFields r).countP
      (fun value => decide (value ≠ "" ∧ value.length > 20)))) 30 =
      (15/2 : ℚ) * ((requiredFields r).countP
        (fun value => decide (value ≠ "" ∧ value.length > 20))) := by
    apply min_eq_left
    calc (15/2 : ℚ) * ((requiredFields r).countP
        (fun value => decide (value ≠ "" ∧ value.length > 20)))
        ≤ (15/2 : ℚ) * 4 := by
          apply mul_le_mul_of_nonneg_left _ (by norm_num)
          exact_mod_cast hcnt
      _ = 30 := by norm_num
  rw [hmin, hbonus]

/-! ## Claim C8 -/

lemma rank_eq_of_priority_beq {x y : Suggestion} {p : String}
    (hx : (x.priority == p) = true) (hy : (y.priority == p) = true) :
    priorityRank x.priority = priorityRank y.priority := by
  have hx2 : x.priority = p := by simpa using hx
  have hy2 : y.priority = p := by simpa using hy
  rw [hx2, hy2]

lemma filter_priority_orderedInsert (x : Suggestion) (p : String) (l : List Suggestion) :
    (List.orderedInsert suggLE x l).filter (fun s => s.priority == p) =
      if x.priority == p then x :: l.filter (fun s => s.priority == p)
      else l.filter (fun s => s.priority == p) := by
  induction l with
  | nil =>
    rw [List.orderedInsert, List.filter_cons]
  | cons y t ih =>
    rw [List.orderedInsert]
    by_cases hxy : suggLE x y
    · rw [if_pos hxy, List.filter_cons]
    · rw [if_neg hxy]
      rw [List.filter_cons, List.filter_cons, ih]
      by_cases hqx : (x.priority == p) = true
      · by_cases hqy : (y.priority == p) = true
        · exact absurd (le_of_eq (rank_eq_of_priority_beq hqx hqy)) hxy
        · simp [hqx, hqy]
      · by_cases hqy : (y.priority == p) = true
        · simp [hqx, hqy]
        · simp [hqx, hqy]

lemma filter_priority_insertionSort (p : String) (l : List Suggestion) :
    (List.insertionSort suggLE l).filter (fun s => s.priority == p) =
      l.filter (fun s => s.priority == p) := by
  induction l with
  | nil => rfl
  | cons x t ih =>
    rw [List.insertionSort, filter_priority_orderedInsert, List.filter_cons, ih]

/-- C8: the merged suggestion list is sorted by priority with
critical < high < medium < low, and stable within each priority: for every
priority string, the subsequence of that priority equals its subsequence
in the concatenated rule-then-semantic input. -/
theorem C8_suggestions_sorted_stable (seoRecs aeoRecs : List Suggestion) :
    (mergeRecommendations seoRecs aeoRecs).Sorted suggLE ∧
      ∀ p : String,
        (mergeRecommendations seoRecs aeoRecs).filter (fun s => s.priority == p) =
          (seoRecs ++ aeoRecs).filter (fun s => s.priority == p) := by
  constructor
  · exact List.sorted_insertionSort suggLE (seoRecs ++ aeoRecs)
  · intro p
    exact filter_priority_insertionSort p (seoRecs ++ aeoRecs)

/-! ## Claim C2 -/

/-- C2 (counterexample): a Job failing at the semantic (LLM) stage enters
the terminal FAILED state with persisted progress 65, not 100 —
`_handle_error` sets status and error columns but never touches
`progress`. -/
theorem C2_job_progress_counterexample :
    (finalJobRow (some (.llm "Anthropic Claude API error: timeout"))).status = .failed ∧
    (finalJobRow (some (.llm "Anthropic Claude API error: timeout"))).progress = 65 ∧
    (65 : Nat) ≠ 100 := by
  refine ⟨rfl, rfl, by decide⟩

/-- C2 (amended): for every Job the persisted progress sequence is
non-decreasing and starts at 0; on entry to COMPLETED the progress is
exactly 100, but on entry to FAILED the progress keeps its value at the
point of failure, which `error_details` records. -/
theorem C2_job_progress_amended (outcome : Option StageFailure) :
    ((runAnalysisJob outcome).map (fun r => r.progress)).Pairwise (· ≤ ·) ∧
    (runAnalysisJob outcome).head?.map (fun r => r.progress) = some 0 ∧
    ((finalJobRow outcome).status = .completed → (finalJobRow outcome).progress = 100) ∧
    ((finalJobRow outcome).status = .failed →
      (finalJobRow outcome).errorProgress = some (finalJobRow outcome).progress) := by
  match outcome with
  | none =>
    refine ⟨?_, rfl, fun _ => rfl, fun h => ?_⟩
    · rw [show (runAnalysisJob none).map (fun r => r.progress) =
        [0, 10, 30, 35, 60, 65, 90, 95, 100] from rfl]
      decide
    · exact absurd h (by decide)
  | some (.crawl m) =>
    refine ⟨?_, rfl, fun h => ?_, fun _ => rfl⟩
    · rw [show (runAnalysisJob (some (.crawl m))).map (fun r => r.progress) =
        [0, 10, 10] from rfl]
      decide
    · exact AStatus.noConfusion h
  | some (.llm m) =>
    refine ⟨?_, rfl, fun h => ?_, fun _ => rfl⟩
    · rw [show (runAnalysisJob (some (.llm m))).map (fun r => r.progress) =
        [0, 10, 30, 35, 60, 65, 65] from rfl]
      decide
    · exact AStatus.noConfusion h
  | some (.save m) =>
    refine ⟨?_, rfl, fun h => ?_, fun _ => rfl⟩
    · rw [show (runAnalysisJob (some (.save m))).map (fun r => r.progress) =
        [0, 10, 30, 35, 60, 65, 90, 95, 95] from rfl]
      decide
    · exact AStatus.noConfusion h

/-- C2 (witness): a concrete crawl-stage failure, run through the amended
theorem: terminal FAILED with `error_details.progress` equal to the
persisted progress. -/
theorem C2_job_progress_witness :
    (finalJobRow (some (.crawl "Failed to crawl: net timeout"))).status = .failed ∧
    (finalJobRow (some (.crawl "Failed to crawl: net timeout"))).errorProgress =
      some (finalJobRow (some (.crawl "Failed to crawl: net timeout"))).progress :=
  ⟨rfl, (C2_job_progress_amended (some (.crawl "Failed to crawl: net timeout"))).2.2.2 rfl⟩

/-! ## Claim C1 -/

/-- C1 (counterexample): the quorum trichotomy holds, but the persisted
error strings are `"All URL analyses failed"` and
`"Insufficient successful analyses (minimum 2 required)"`, not the
claim's `"all analyses failed"` and
`"insufficient successful analyses (minimum 2 required)"`. -/
theorem C1_batch_quorum_counterexample :
    (runAnalysisSync [false, false] (Except.ok ())).batch.status = .failed ∧
    (runAnalysisSync [false, false] (Except.ok ())).batch.errorMessage ≠
      some "all analyses failed" ∧
    (runAnalysisSync [true, false] (Except.ok ())).batch.errorMessage ≠
      some "insufficient successful analyses (minimum 2 required)" := by
  refine ⟨rfl, by decide, by decide⟩

/-- C1 (amended): once all children are terminal, if zero children
completed the Batch becomes FAILED with error
`"All URL analyses failed"`, progress 100 and no Comparison; if exactly
one completed it becomes FAILED with error
`"Insufficient successful analyses (minimum 2 required)"` and no
Comparison; if at least two completed the Aggregator runs and on its
success the Batch becomes COMPLETED with progress 100 and a persisted
Comparison. -/
theorem C1_batch_quorum_amended (urlResults : List Bool) (hne : urlResults ≠ []) :
    (countCompleted urlResults = 0 →
      (runAnalysisSync urlResults (Except.ok ())).batch.status = .failed ∧
      (runAnalysisSync urlResults (Except.ok ())).batch.errorMessage =
        some "All URL analyses failed" ∧
      (runAnalysisSync urlResults (Except.ok ())).batch.progress = 100 ∧
      (runAnalysisSync urlResults (Except.ok ())).comparisonPersisted = false) ∧
    (countCompleted urlResults = 1 →
      (runAnalysisSync urlResults (Except.ok ())).batch.status = .failed ∧
      (runAnalysisSync urlResults (Except.ok ())).batch.errorMessage =
        some "Insufficient successful analyses (minimum 2 required)" ∧
      (runAnalysisSync urlResults (Except.ok ())).batch.progress = 100 ∧
      (runAnalysisSync urlResults (Except.ok ())).comparisonPersisted = false) ∧
    (2 ≤ countCompleted urlResults →
      (runAnalysisSync urlResults (Except.ok ())).batch.status = .completed ∧
      (runAnalysisSync urlResults (Except.ok ())).batch.progress = 100 ∧
      (runAnalysisSync urlResults (Except.ok ())).comparisonPersisted = true) := by
  have hemp : urlResults.isEmpty = false := by simpa [List.isEmpty_iff] using hne
  refine ⟨fun h0 => ?_, fun h1 => ?_, fun h2 => ?_⟩
  · simp [runAnalysisSync, hemp, h0, finalizeBatch, initialBatchRow]
  · simp [runAnalysisSync, hemp, h1, finalizeBatch, initialBatchRow]
  · simp [runAnalysisSync, hemp, h2, finalizeBatch, initialBatchRow]

/-- C1 (witness): a two-URL batch where both children complete, run
through the amended theorem. -/
theorem C1_batch_quorum_witness :
    ([true, true] : List Bool) ≠ [] ∧
    ((runAnalysisSync [true, true] (Except.ok ())).batch.status = .completed ∧
     (runAnalysisSync [true, true] (Except.ok ())).batch.progress = 100 ∧
     (runAnalysisSync [true, true] (Except.ok ())).comparisonPersisted = true) :=
  ⟨by decide, (C1_batch_quorum_amended [true, true] (by decide)).2.2 (by decide)⟩

/-! ## Claim C5 -/

/-- C5 (counterexample): a two-URL batch whose aggregation raises is
finalized FAILED with both counts written as 0, so
`completed_count + failed_count = 0 ≠ 2 = total` at terminal entry. -/
theorem C5_batch_counts_counterexample :
    (runAnalysisSync [true, true] (Except.error "LLM call failed")).batch.status = .failed ∧
    (runAnalysisSync [true, true] (Except.error "LLM call failed")).batch.completedCount +
      (runAnalysisSync [true, true] (Except.error "LLM call failed")).batch.failedCount = 0 ∧
    ([true, true] : List Bool).length = 2 ∧ (0 : Nat) ≠ 2 := by
  refine ⟨rfl, rfl, rfl, by decide⟩

/-- C5 (amended): `completed_count + failed_count ≤ total` always holds at
terminal entry; it equals `total` whenever the run reaches the normal
finalize path (some URLs exist and the aggregator, if invoked, succeeds),
while the batch-level exception path resets both counts to 0. -/
theorem C5_batch_counts_amended (urlResults : List Bool) (agg : Except String Unit) :
    ((runAnalysisSync urlResults agg).batch.completedCount +
      (runAnalysisSync urlResults agg).batch.failedCount ≤ urlResults.length) ∧
    (urlResults ≠ [] → (2 ≤ countCompleted urlResults → agg = Except.ok ()) →
      (runAnalysisSync urlResults agg).batch.completedCount +
        (runAnalysisSync urlResults agg).batch.failedCount = urlResults.length) := by
  have hcle : countCompleted urlResults ≤ urlResults.length :=
    List.length_filter_le _ _
  have hsum : countCompleted urlResults +
      (urlResults.length - countCompleted urlResults) = urlResults.length :=
    Nat.add_sub_cancel' hcle
  by_cases hne : urlResults = []
  · subst hne
    exact ⟨by simp [runAnalysisSync, finalizeBatch, initialBatchRow], fun h => absurd rfl h⟩
  · have hemp : urlResults.isEmpty = false := by simpa [List.isEmpty_iff] using hne
    by_cases h2 : 2 ≤ countCompleted urlResults
    · match agg with
      | .ok _ =>
        constructor
        · simp [runAnalysisSync, hemp, h2, finalizeBatch, initialBatchRow, hsum]
        · intro _ _
          simp [runAnalysisSync, hemp, h2, finalizeBatch, initialBatchRow, hsum]
      | .error m =>
        constructor
        · simp [runAnalysisSync, hemp, h2, finalizeBatch, initialBatchRow]
        · intro _ hok
          exact absurd (hok h2) (by simp)
    · by_cases h0 : countCompleted urlResults = 0
      · constructor
        · simp [runAnalysisSync, hemp, h2, h0, finalizeBatch, initialBatchRow, hsum]
        · intro _ _
          simp [runAnalysisSync, hemp, h2, h0, finalizeBatch, initialBatchRow]
      · constructor
        · simp [runAnalysisSync, hemp, h2, h0, finalizeBatch, initialBatchRow, hsum]
        · intro _ _
          simp [runAnalysisSync, hemp, h2, h0, finalizeBatch, initialBatchRow, hsum]

/-- C5 (witness): a three-URL batch with two completions, run through the
amended theorem: counts sum to the total at terminal entry. -/
theorem C5_batch_counts_witness :
    ((runAnalysisSync [true, false, true] (Except.ok ())).batch.completedCount +
      (runAnalysisSync [true, false, true] (Except.ok ())).batch.failedCount ≤ 3) ∧
    ((runAnalysisSync [true, false, true] (Except.ok ())).batch.completedCount +
      (runAnalysisSync [true, false, true] (Except.ok ())).batch.failedCount = 3) :=
  ⟨(C5_batch_counts_amended [true, false, true] (Except.ok ())).1,
   (C5_batch_counts_amended [true, false, true] (Except.ok ())).2 (by decide) (fun _ => rfl)⟩

/-! ## Claim C6 -/

/-- C6 (counterexample): with two completed children and a persistently
failing narrative LLM call, the Batch does not remain COMPLETED and no
comparison row is persisted — the exception propagates out of
`generate_comparison` before anything is written. -/
theorem C6_aggregator_failure_counterexample :
    (runAnalysisSync [true, true] (Except.error "Anthropic API error")).batch.status
      ≠ .completed ∧
    (runAnalysisSync [true, true] (Except.error "Anthropic API error")).comparisonPersisted
      = false := by
  refine ⟨by decide, rfl⟩

/-- C6 (amended): if the Aggregator's single narrative LLM call fails
persistently, the exception propagates: no comparison (numeric or
otherwise) is persisted, and the Batch is finalized FAILED with the
truncated exception text as its error message. -/
theorem C6_aggregator_failure_amended (urlResults : List Bool) (m : String)
    (h2 : 2 ≤ countCompleted urlResults) :
    (runAnalysisSync urlResults (Except.error m)).batch.status = .failed ∧
    (runAnalysisSync urlResults (Except.error m)).comparisonPersisted = false ∧
    (runAnalysisSync urlResults (Except.error m)).batch.errorMessage =
      some (m.take 500) := by
  have hne : urlResults ≠ [] := by
    intro h
    rw [h] at h2
    simp [countCompleted] at h2
  have hemp : urlResults.isEmpty = false := by simpa [List.isEmpty_iff] using hne
  simp [runAnalysisSync, hemp, h2, finalizeBatch, initialBatchRow]

/-- C6 (witness): a three-URL batch with two completions and a failing
narrative call, run through the amended theorem. -/
theorem C6_aggregator_failure_witness :
    (runAnalysisSync [true, true, false] (Except.error "rate limited")).batch.status
      = .failed ∧
    (runAnalysisSync [true, true, false] (Except.error "rate limited")).comparisonPersisted
      = false ∧
    (runAnalysisSync [true, true, false] (Except.error "rate limited")).batch.errorMessage
      = some ("rate limited".take 500) :=
  C6_aggregator_failure_amended [true, true, false] "rate limited" (by decide)

/-! ## Claim C7 -/

/-- Evaluation of `pyRound` when the argument rounds down. -/
lemma pyRound_eq_of_lt_half (y : ℚ) (k : ℤ) (h1 : (k : ℚ) ≤ y) (h2 : y < k + 1/2) :
    pyRound y = k := by
  have hfl : ⌊y⌋ = k := Int.floor_eq_iff.mpr ⟨h1, by linarith⟩
  simp only [pyRound, hfl]
  rw [if_pos (by linarith : y - (k:ℚ) < 1/2)]

/-- Evaluation of `pyRound` when the argument rounds up. -/
lemma pyRound_eq_of_gt_half (y : ℚ) (k : ℤ) (h1 : (k : ℚ) + 1/2 < y) (h2 : y < k + 1) :
    pyRound y = k + 1 := by
  have hfl : ⌊y⌋ = k := Int.floor_eq_iff.mpr ⟨by linarith, by linarith⟩
  simp only [pyRound, hfl]
  rw [if_neg (by linarith : ¬ (y - (k:ℚ) < 1/2)),
    if_pos (by linarith : y - (k:ℚ) > 1/2)]

/-- Rounding to the nearest integer moves a value by at most 1/2. -/
lemma abs_pyRound_sub_le (y : ℚ) : |(pyRound y : ℚ) - y| ≤ 1/2 := by
  have h0 : (⌊y⌋ : ℚ) ≤ y := Int.floor_le y
  have h1 : y < ⌊y⌋ + 1 := Int.lt_floor_add_one y
  simp only [pyRound]
  split_ifs with ha hb hc
  · rw [abs_le]; constructor <;> linarith
  · rw [abs_le]
    push_cast
    constructor <;> linarith [not_lt.mp ha]
  · rw [abs_le]
    constructor <;> linarith [not_lt.mp ha, not_lt.mp hb]
  · rw [abs_le]
    push_cast
    constructor <;> linarith [not_lt.mp ha, not_lt.mp hb]

/-- Characterization of `Int.log 2` by the enclosing binade. -/
lemma int_log2_eq {x : ℚ} {L : ℤ} (hx : 0 < x) (h1 : 2 ^ L ≤ x) (h2 : x < 2 ^ (L + 1)) :
    Int.log 2 x = L := by
  have hcast : ((2 : ℕ) : ℚ) = 2 := by norm_num
  have hu : L ≤ Int.log 2 x := by
    rw [← Int.zpow_le_iff_le_log (by norm_num) hx, hcast]
    exact h1
  have hv : Int.log 2 x < L + 1 := by
    rw [← Int.lt_zpow_iff_log_lt (by norm_num) hx, hcast]
    exact h2
  omega

/-- Unfolding of one `fl64` step at a positive value in the binade
`[2^L, 2^(L+1))`, given the rounded scaled significand. -/
lemma fl64_eq_of_round (x : ℚ) (L : ℤ) (w : ℕ) (k : ℤ)
    (hw : L - 52 = -(w : ℤ)) (hx : 0 < x)
    (h1 : 2 ^ L ≤ x) (h2 : x < 2 ^ (L + 1))
    (hk : pyRound (x * 2 ^ w) = k) :
    fl64 x = k / 2 ^ w := by
  rw [fl64, if_neg hx.ne', abs_of_pos hx, int_log2_eq hx h1 h2, hw,
    if_neg (not_lt.mpr hx.le), one_mul]
  rw [show ((2:ℚ) ^ (-(w:ℤ)) : ℚ) = ((2:ℚ) ^ w)⁻¹ by rw [zpow_neg, zpow_natCast]]
  rw [div_eq_mul_inv, inv_inv, hk, div_eq_mul_inv]

/-- Concrete `fl64` evaluation, round-down case. -/
lemma fl64_eval_down (x : ℚ) (L : ℤ) (w : ℕ) (k : ℤ)
    (hw : L - 52 = -(w : ℤ)) (hx : 0 < x)
    (h1 : 2 ^ L ≤ x) (h2 : x < 2 ^ (L + 1))
    (hk1 : (k : ℚ) ≤ x * 2 ^ w) (hk2 : x * 2 ^ w < k + 1/2) :
    fl64 x = k / 2 ^ w :=
  fl64_eq_of_round x L w k hw hx h1 h2 (pyRound_eq_of_lt_half _ k hk1 hk2)

/-- Concrete `fl64` evaluation, round-up case. -/
lemma fl64_eval_up (x : ℚ) (L : ℤ) (w : ℕ) (k : ℤ)
    (hw : L - 52 = -(w : ℤ)) (hx : 0 < x)
    (h1 : 2 ^ L ≤ x) (h2 : x < 2 ^ (L + 1))
    (hk1 : (k : ℚ) + 1/2 < x * 2 ^ w) (hk2 : x * 2 ^ w < k + 1) :
    fl64 x = (k + 1) / 2 ^ w := by
  have := fl64_eq_of_round x L w (k + 1) hw hx h1 h2 (pyRound_eq_of_gt_half _ k hk1 hk2)
  exact_mod_cast this

/-- Relative error of one binary64 rounding step on non-negative values:
at most one part in 2^53. -/
lemma fl64_sub_le (x : ℚ) (hx : 0 ≤ x) :
    x - x * (1/2^53) ≤ fl64 x ∧ fl64 x ≤ x + x * (1/2^53) := by
  rcases eq_or_lt_of_le hx with h0 | hpos
  · rw [← h0]
    norm_num [fl64]
  · rw [fl64, if_neg hpos.ne', abs_of_pos hpos, if_neg (not_lt.mpr hpos.le), one_mul]
    have hp : (0:ℚ) < (2:ℚ) ^ (Int.log 2 x - 52) := zpow_pos (by norm_num) _
    have hlow : (2:ℚ) ^ (Int.log 2 x) ≤ x := by
      have h := Int.zpow_log_le_self (b := 2) (by norm_num) hpos
      rwa [show ((2:ℕ):ℚ) = 2 by norm_num] at h
    have hxy : x / 2 ^ (Int.log 2 x - 52) * 2 ^ (Int.log 2 x - 52) = x :=
      div_mul_cancel₀ x hp.ne'
    have hr := abs_pyRound_sub_le (x / 2 ^ (Int.log 2 x - 52))
    rw [abs_le] at hr
    obtain ⟨hr1, hr2⟩ := hr
    have hub : (pyRound (x / 2 ^ (Int.log 2 x - 52)) : ℚ) * 2 ^ (Int.log 2 x - 52) ≤
        x + 2 ^ (Int.log 2 x - 52) * (1/2) := by
      calc (pyRound (x / 2 ^ (Int.log 2 x - 52)) : ℚ) * 2 ^ (Int.log 2 x - 52) ≤
          (x / 2 ^ (Int.log 2 x - 52) + 1/2) * 2 ^ (Int.log 2 x - 52) :=
            mul_le_mul_of_nonneg_right (by linarith) hp.le
        _ = x + 2 ^ (Int.log 2 x - 52) * (1/2) := by rw [add_mul, hxy]; ring
    have hlb : x - 2 ^ (Int.log 2 x - 52) * (1/2) ≤
        (pyRound (x / 2 ^ (Int.log 2 x - 52)) : ℚ) * 2 ^ (Int.log 2 x - 52) := by
      calc x - 2 ^ (Int.log 2 x - 52) * (1/2)
          = (x / 2 ^ (Int.log 2 x - 52) - 1/2) * 2 ^ (Int.log 2 x - 52) := by
            rw [sub_mul, hxy]; ring
        _ ≤ (pyRound (x / 2 ^ (Int.log 2 x - 52)) : ℚ) * 2 ^ (Int.log 2 x - 52) :=
            mul_le_mul_of_nonneg_right (by linarith) hp.le
    have hL53 : (2:ℚ) ^ (Int.log 2 x - 52) * (1/2) ≤ x * (1/2^53) := by
      have heq : (2:ℚ) ^ (Int.log 2 x - 52) = 2 ^ (Int.log 2 x) * (2:ℚ) ^ (-52:ℤ) := by
        rw [sub_eq_add_neg, zpow_add₀ (by norm_num : (2:ℚ) ≠ 0)]
      calc (2:ℚ) ^ (Int.log 2 x - 52) * (1/2)
          = 2 ^ (Int.log 2 x) * ((2:ℚ) ^ (-52:ℤ) * (1/2)) := by rw [heq]; ring
        _ ≤ x * ((2:ℚ) ^ (-52:ℤ) * (1/2)) :=
            mul_le_mul_of_nonneg_right hlow (by positivity)
        _ = x * (1/2^53) := by norm_num
    exact ⟨by linarith, by linarith⟩

/-- Binary64 rounding preserves non-negativity. -/
lemma fl64_nonneg (x : ℚ) (hx : 0 ≤ x) : 0 ≤ fl64 x := by
  obtain ⟨h1, _⟩ := fl64_sub_le x hx
  nlinarith

/-- Absolute-error form of `fl64_sub_le` with an upper bound on the
argument. -/
lemma fl64_close (x C : ℚ) (hx : 0 ≤ x) (hC : x ≤ C) (hd : (0:ℚ) ≤ 1/2^53) :
    x - C * (1/2^53) ≤ fl64 x ∧ fl64 x ≤ x + C * (1/2^53) := by
  obtain ⟨h1, h2⟩ := fl64_sub_le x hx
  have h3 := mul_le_mul_of_nonneg_right hC hd
  exact ⟨by linarith, by linarith⟩

/-- Float evaluation: 1/2 is exactly representable. -/
lemma fl64_half : fl64 ((1:ℚ)/2) = 1/2 := by
  have h := fl64_eval_down (1/2 : ℚ) (-1) 53 (2^52)
    (by norm_num) (by norm_num) (by norm_num) (by norm_num) (by norm_num) (by norm_num)
  rw [h]; norm_num

/-- Float evaluation: 50 is exactly representable. -/
lemma fl64_fifty : fl64 (50:ℚ) = 50 := by
  have h := fl64_eval_down (50 : ℚ) 5 47 (50 * 2^47)
    (by norm_num) (by norm_num) (by norm_num) (by norm_num) (by push_cast; norm_num)
    (by push_cast; norm_num)
  rw [h]; norm_num

/-- Float evaluation: 1/4 is exactly representable. -/
lemma fl64_quarter : fl64 ((1:ℚ)/4) = 1/4 := by
  have h := fl64_eval_down (1/4 : ℚ) (-2) 54 (2^52)
    (by norm_num) (by norm_num) (by norm_num) (by norm_num) (by norm_num) (by norm_num)
  rw [h]; norm_num

/-- Float evaluation: 25 is exactly representable. -/
lemma fl64_25 : fl64 (25:ℚ) = 25 := by
  have h := fl64_eval_down (25 : ℚ) 4 48 (25 * 2^48)
    (by norm_num) (by norm_num) (by norm_num) (by norm_num) (by push_cast; norm_num)
    (by push_cast; norm_num)
  rw [h]; norm_num

/-- Float evaluation: 75 is exactly representable. -/
lemma fl64_75 : fl64 (75:ℚ) = 75 := by
  have h := fl64_eval_down (75 : ℚ) 6 46 (75 * 2^46)
    (by norm_num) (by norm_num) (by norm_num) (by norm_num) (by push_cast; norm_num)
    (by push_cast; norm_num)
  rw [h]; norm_num

/-- Float evaluation: `1/3` rounds down to the 54-binade significand
6004799503160661. -/
lemma fl64_third : fl64 ((1:ℚ)/3) = 6004799503160661 / 2^54 := by
  have h := fl64_eval_down (1/3 : ℚ) (-2) 54 6004799503160661
    (by norm_num) (by norm_num) (by norm_num) (by norm_num) (by norm_num) (by norm_num)
  rw [h]; norm_num

/-- Float evaluation of `fl(1/3) * 100` (the base contribution at index 1
of 3). -/
lemma fl64_third_x100 :
    fl64 ((6004799503160661 / 2^54 : ℚ) * 100) = 4691249611844266 / 2^47 := by
  rw [show (6004799503160661 / 2^54 : ℚ) * 100 = 600479950316066100 / 2^54 by norm_num]
  have h := fl64_eval_down (600479950316066100 / 2^54 : ℚ) 5 47 4691249611844266
    (by norm_num) (by norm_num) (by norm_num) (by norm_num) (by norm_num) (by norm_num)
  rw [h]; norm_num

/-- Float evaluation of `35 / 100`. -/
lemma fl64_p35 : fl64 ((35:ℚ)/100) = 6305039478318694 / 2^54 := by
  have h := fl64_eval_down (35/100 : ℚ) (-2) 54 6305039478318694
    (by norm_num) (by norm_num) (by norm_num) (by norm_num) (by norm_num) (by norm_num)
  rw [h]; norm_num

/-- Float evaluation of `fl(35/100) * fl(1/3)` (rounds up). -/
lemma fl64_prod_35_third :
    fl64 ((6305039478318694 / 2^54 : ℚ) * (6004799503160661 / 2^54)) =
      8406719304424925 / 2^56 := by
  rw [show (6305039478318694 / 2^54 : ℚ) * (6004799503160661 / 2^54) =
    37860497926816446954435241696734 / 2^108 by norm_num]
  have h := fl64_eval_up (37860497926816446954435241696734 / 2^108 : ℚ) (-4) 56
    8406719304424924
    (by norm_num) (by norm_num) (by norm_num) (by norm_num) (by norm_num) (by norm_num)
  rw [h]; norm_num

/-- Float evaluation of the current contribution times 100 (rounds up). -/
lemma fl64_cur_35_3 :
    fl64 ((8406719304424925 / 2^56 : ℚ) * 100) = 6567749456581973 / 2^49 := by
  rw [show (8406719304424925 / 2^56 : ℚ) * 100 = 840671930442492500 / 2^56 by norm_num]
  have h := fl64_eval_up (840671930442492500 / 2^56 : ℚ) 3 49 6567749456581972
    (by norm_num) (by norm_num) (by norm_num) (by norm_num) (by norm_num) (by norm_num)
  rw [h]; norm_num

/-- Float evaluation of the final addition at (1, 3, 35): the exact sum is
just below 45 and rounds to `45 - 2^(-47)`. -/
lemma fl64_sum_35_3 :
    fl64 ((4691249611844266 / 2^47 : ℚ) + 6567749456581973 / 2^49) =
      6333186975989759 / 2^47 := by
  rw [show (4691249611844266 / 2^47 : ℚ) + 6567749456581973 / 2^49 =
    25332747903959037 / 2^49 by norm_num]
  have h := fl64_eval_down (25332747903959037 / 2^49 : ℚ) 5 47 6333186975989759
    (by norm_num) (by norm_num) (by norm_num) (by norm_num) (by norm_num) (by norm_num)
  rw [h]; norm_num

/-- At the reachable input index 1 of 3 with child progress 35, the float
computation publishes 44, one below the exact `floor(135/3) = 45`. -/
lemma aggregate_1_3_35 : aggregateProgress 1 3 35 = 44 := by
  rw [aggregateProgress]
  rw [show ((1:ℕ):ℚ) / ((3:ℕ):ℚ) = 1/3 by norm_num]
  rw [show ((35:ℕ):ℚ) / 100 = 35/100 by norm_num]
  rw [show (1:ℚ) / ((3:ℕ):ℚ) = 1/3 by norm_num]
  rw [fl64_third, fl64_third_x100, fl64_p35, fl64_prod_35_third, fl64_cur_35_3,
    fl64_sum_35_3]
  rw [show ⌊(6333186975989759 / 2^47 : ℚ)⌋ = 44 by norm_num [Int.floor_eq_iff]]

set_option maxHeartbeats 1000000 in
/-- Accumulated error of the callback's full float chain: for reachable
inputs (index below the total, progress at most 100) the binary64 result
stays within 1/1000 of the exact value `(100*i + p) / t` (seven rounding
steps, each off by at most one part in 2^53 of a value at most 101). -/
lemma aggregate_sum_close (i t p : ℕ) (ht0 : 0 < t) (hi : i < t) (hp : p ≤ 100) :
    |fl64 (fl64 (fl64 ((i : ℚ) / (t : ℚ)) * 100) +
        fl64 (fl64 (fl64 ((p : ℚ) / 100) * fl64 (1 / (t : ℚ))) * 100)) -
      ((100 * i + p : ℕ) : ℚ) / (t : ℚ)| ≤ 1/1000 := by
  have htq : (0:ℚ) < (t:ℚ) := by exact_mod_cast ht0
  have ht1 : (1:ℚ) ≤ (t:ℚ) := by exact_mod_cast ht0
  set A := (i:ℚ) / (t:ℚ) with hAdef
  set Pq := (p:ℚ) / 100 with hPdef
  set Iq := 1 / (t:ℚ) with hIdef
  have hA0 : 0 ≤ A := by rw [hAdef]; positivity
  have hA1 : A ≤ 1 := by
    rw [hAdef, div_le_one htq]; exact_mod_cast hi.le
  have hP0 : 0 ≤ Pq := by rw [hPdef]; positivity
  have hP1 : Pq ≤ 1 := by
    rw [hPdef, div_le_one (by norm_num)]; exact_mod_cast hp
  have hI0 : 0 ≤ Iq := by rw [hIdef]; positivity
  have hI1 : Iq ≤ 1 := by rw [hIdef, div_le_one htq]; exact ht1
  obtain ⟨ha1l, ha1u⟩ := fl64_close A 1 hA0 hA1 (by norm_num)
  have ha10 : 0 ≤ fl64 A := fl64_nonneg A hA0
  have harg2u : fl64 A * 100 ≤ 101 := by
    have : (100:ℚ) * (1/2^53) ≤ 1 := by norm_num
    linarith
  obtain ⟨hbl, hbu⟩ :=
    fl64_close (fl64 A * 100) 101 (mul_nonneg ha10 (by norm_num)) harg2u (by norm_num)
  have hb0 : 0 ≤ fl64 (fl64 A * 100) :=
    fl64_nonneg _ (mul_nonneg ha10 (by norm_num))
  have hbase_l : 100*A - 201*(1/2^53) ≤ fl64 (fl64 A * 100) := by linarith
  have hbase_u : fl64 (fl64 A * 100) ≤ 100*A + 201*(1/2^53) := by linarith
  obtain ⟨hc1l, hc1u⟩ := fl64_close Pq 1 hP0 hP1 (by norm_num)
  have hc10 : 0 ≤ fl64 Pq := fl64_nonneg Pq hP0
  obtain ⟨hc2l, hc2u⟩ := fl64_close Iq 1 hI0 hI1 (by norm_num)
  have hc20 : 0 ≤ fl64 Iq := fl64_nonneg Iq hI0
  have hprod_u : fl64 Pq * fl64 Iq ≤ Pq * Iq + 3*(1/2^53) := by
    have h1 : fl64 Pq * fl64 Iq ≤ (Pq + 1*(1/2^53)) * (Iq + 1*(1/2^53)) :=
      mul_le_mul hc1u hc2u hc20 (by linarith)
    have e1 : (1/2^53 : ℚ) * Pq ≤ (1/2^53) * 1 :=
      mul_le_mul_of_nonneg_left hP1 (by norm_num)
    have e2 : (1/2^53 : ℚ) * Iq ≤ (1/2^53) * 1 :=
      mul_le_mul_of_nonneg_left hI1 (by norm_num)
    have e3 : (1/2^53 : ℚ) * (1/2^53) ≤ (1/2^53) * 1 := by norm_num
    nlinarith [h1, e1, e2, e3]
  have hprod_l : Pq * Iq - 3*(1/2^53) ≤ fl64 Pq * fl64 Iq := by
    have f1 : fl64 Pq * (Iq - fl64 Iq) ≤ fl64 Pq * (1*(1/2^53)) :=
      mul_le_mul_of_nonneg_left (by linarith) hc10
    have f2 : fl64 Pq * (1*(1/2^53)) ≤ (1 + 1*(1/2^53)) * (1*(1/2^53)) :=
      mul_le_mul_of_nonneg_right (by linarith) (by norm_num)
    have f3 : Iq * (Pq - fl64 Pq) ≤ Iq * (1*(1/2^53)) :=
      mul_le_mul_of_nonneg_left (by linarith) hI0
    have f4 : Iq * (1*(1/2^53)) ≤ 1 * (1*(1/2^53)) :=
      mul_le_mul_of_nonneg_right hI1 (by norm_num)
    have f5 : ((1:ℚ) + 1*(1/2^53)) * (1*(1/2^53)) ≤ 2*(1/2^53) := by norm_num
    nlinarith [f1, f2, f3, f4, f5]
  have hprod0 : 0 ≤ fl64 Pq * fl64 Iq := mul_nonneg hc10 hc20
  have hPqIq1 : Pq * Iq ≤ 1 :=
    le_trans (mul_le_of_le_one_right hP0 hI1) hP1
  have hprodu2 : fl64 Pq * fl64 Iq ≤ 2 := by
    have : (3:ℚ)*(1/2^53) ≤ 1 := by norm_num
    linarith
  obtain ⟨hc3l, hc3u⟩ := fl64_close (fl64 Pq * fl64 Iq) 2 hprod0 hprodu2 (by norm_num)
  have hc30 : 0 ≤ fl64 (fl64 Pq * fl64 Iq) := fl64_nonneg _ hprod0
  have hc3_l : Pq*Iq - 5*(1/2^53) ≤ fl64 (fl64 Pq * fl64 Iq) := by linarith
  have hc3_u : fl64 (fl64 Pq * fl64 Iq) ≤ Pq*Iq + 5*(1/2^53) := by linarith
  have harg4u : fl64 (fl64 Pq * fl64 Iq) * 100 ≤ 101 := by
    have : (500:ℚ)*(1/2^53) ≤ 1 := by norm_num
    linarith
  obtain ⟨hc4l, hc4u⟩ :=
    fl64_close (fl64 (fl64 Pq * fl64 Iq) * 100) 101
      (mul_nonneg hc30 (by norm_num)) harg4u (by norm_num)
  have hcur0 : 0 ≤ fl64 (fl64 (fl64 Pq * fl64 Iq) * 100) :=
    fl64_nonneg _ (mul_nonneg hc30 (by norm_num))
  have hcur_l : 100*(Pq*Iq) - 601*(1/2^53) ≤ fl64 (fl64 (fl64 Pq * fl64 Iq) * 100) := by
    linarith
  have hcur_u : fl64 (fl64 (fl64 Pq * fl64 Iq) * 100) ≤ 100*(Pq*Iq) + 601*(1/2^53) := by
    linarith
  have hrel : 100*A + 100*(Pq*Iq) = ((100 * i + p : ℕ) : ℚ) / (t:ℚ) := by
    rw [hAdef, hPdef, hIdef]
    push_cast
    field_simp
    ring
  have hS100 : ((100 * i + p : ℕ) : ℚ) / (t:ℚ) ≤ 100 := by
    rw [div_le_iff₀ htq]
    exact_mod_cast (show 100 * i + p ≤ 100 * t by omega)
  have hsarg0 : 0 ≤ fl64 (fl64 A * 100) + fl64 (fl64 (fl64 Pq * fl64 Iq) * 100) :=
    add_nonneg hb0 hcur0
  have hsargu : fl64 (fl64 A * 100) + fl64 (fl64 (fl64 Pq * fl64 Iq) * 100) ≤ 101 := by
    have : (802:ℚ)*(1/2^53) ≤ 1 := by norm_num
    linarith
  obtain ⟨hfl, hfu⟩ :=
    fl64_close (fl64 (fl64 A * 100) + fl64 (fl64 (fl64 Pq * fl64 Iq) * 100)) 101
      hsarg0 hsargu (by norm_num)
  rw [abs_le]
  have hfinal : (903:ℚ)*(1/2^53) ≤ 1/1000 := by norm_num
  constructor <;> linarith

/-- Floor bounds for the published aggregate: within one below the exact
floored quotient, with equality when the total does not divide
`100*i + p` (then the exact value sits at least 1/5 inside its unit
interval, far beyond the float error). -/
lemma aggregate_floor (i t p : ℕ) (ht0 : 0 < t) (ht5 : t ≤ 5) (hi : i < t)
    (hp : p ≤ 100) :
    (((100 * i + p) / t : ℕ) : ℤ) - 1 ≤ aggregateProgress i t p ∧
    aggregateProgress i t p ≤ (((100 * i + p) / t : ℕ) : ℤ) ∧
    (¬ t ∣ 100 * i + p → aggregateProgress i t p = (((100 * i + p) / t : ℕ) : ℤ)) := by
  have habs := aggregate_sum_close i t p ht0 hi hp
  rw [abs_le] at habs
  obtain ⟨hsl, hsu⟩ := habs
  have htq : (0:ℚ) < (t:ℚ) := by exact_mod_cast ht0
  rw [show aggregateProgress i t p =
    ⌊fl64 (fl64 (fl64 ((i : ℚ) / (t : ℚ)) * 100) +
        fl64 (fl64 (fl64 ((p : ℚ) / 100) * fl64 (1 / (t : ℚ))) * 100))⌋ from rfl]
  set s := fl64 (fl64 (fl64 ((i : ℚ) / (t : ℚ)) * 100) +
      fl64 (fl64 (fl64 ((p : ℚ) / 100) * fl64 (1 / (t : ℚ))) * 100)) with hsdef
  have hqr : 100 * i + p = t * ((100 * i + p) / t) + (100 * i + p) % t :=
    (Nat.div_add_mod _ t).symm
  have hrt : (100 * i + p) % t < t := Nat.mod_lt _ ht0
  have hSq : ((100 * i + p : ℕ) : ℚ) / (t:ℚ) =
      (((100 * i + p) / t : ℕ) : ℚ) + (((100 * i + p) % t : ℕ) : ℚ) / (t:ℚ) := by
    have hc : ((100 * i + p : ℕ) : ℚ) =
        (t:ℚ) * (((100 * i + p) / t : ℕ) : ℚ) + (((100 * i + p) % t : ℕ) : ℚ) := by
      exact_mod_cast congrArg (Nat.cast : ℕ → ℚ) hqr
    rw [hc]
    field_simp
    ring
  have hr0 : (0:ℚ) ≤ (((100 * i + p) % t : ℕ) : ℚ) / (t:ℚ) := by positivity
  have hr45 : (((100 * i + p) % t : ℕ) : ℚ) / (t:ℚ) ≤ 4/5 := by
    rw [div_le_div_iff₀ htq (by norm_num)]
    exact_mod_cast (show ((100 * i + p) % t) * 5 ≤ 4 * t by omega)
  have hcast1 : (((((100 * i + p) / t : ℕ) : ℤ) + 1 : ℤ) : ℚ) =
      (((100 * i + p) / t : ℕ) : ℚ) + 1 := by
    rw [Int.cast_add, Int.cast_one, Int.cast_natCast]
  have hcast2 : (((((100 * i + p) / t : ℕ) : ℤ) - 1 : ℤ) : ℚ) =
      (((100 * i + p) / t : ℕ) : ℚ) - 1 := by
    rw [Int.cast_sub, Int.cast_one, Int.cast_natCast]
  have hcast3 : ((((100 * i + p) / t : ℕ) : ℤ) : ℚ) =
      (((100 * i + p) / t : ℕ) : ℚ) := Int.cast_natCast _
  have hupper : ⌊s⌋ ≤ (((100 * i + p) / t : ℕ) : ℤ) := by
    have : ⌊s⌋ < (((100 * i + p) / t : ℕ) : ℤ) + 1 := by
      rw [Int.floor_lt, hcast1]
      linarith [hSq, hsu]
    omega
  have hlower : (((100 * i + p) / t : ℕ) : ℤ) - 1 ≤ ⌊s⌋ := by
    rw [Int.le_floor, hcast2]
    linarith [hSq, hsl]
  refine ⟨hlower, hupper, fun hdvd => ?_⟩
  have hrne : (100 * i + p) % t ≠ 0 := fun h => hdvd (Nat.dvd_iff_mod_eq_zero.mpr h)
  have hr15 : (1:ℚ)/5 ≤ (((100 * i + p) % t : ℕ) : ℚ) / (t:ℚ) := by
    rw [div_le_div_iff₀ (by norm_num) htq]
    exact_mod_cast (show 1 * t ≤ ((100 * i + p) % t) * 5 by omega)
  have hge : (((100 * i + p) / t : ℕ) : ℤ) ≤ ⌊s⌋ := by
    rw [Int.le_floor, hcast3]
    linarith [hSq, hsl, hr15]
  omega

/-- C7 (counterexample): with two children at progress 10 and 50, the
event from child index 1 is published as progress 75
(`int(1/2*100 + 50/100*(1/2)*100)`, float-exact at these dyadic inputs),
while the claim's `floor(Σ child_progress / total)` would be 30. -/
theorem C7_batch_progress_counterexample :
    publishedBatchProgress 1 2 50 = 75 ∧
    claimedBatchProgress [10, 50] 2 = 30 ∧
    (75 : ℤ) ≠ 30 := by
  refine ⟨?_, ?_, by decide⟩
  · rw [publishedBatchProgress]
    rw [show aggregateProgress 1 2 50 = 75 by
      rw [aggregateProgress]
      rw [show ((1:ℕ):ℚ) / ((2:ℕ):ℚ) = 1/2 by norm_num]
      rw [show ((50:ℕ):ℚ) / 100 = 1/2 by norm_num]
      rw [show (1:ℚ) / ((2:ℕ):ℚ) = 1/2 by norm_num]
      rw [fl64_half]
      rw [show (1/2 : ℚ) * 100 = 50 by norm_num, fl64_fifty]
      rw [show (1/2 : ℚ) * (1/2) = 1/4 by norm_num, fl64_quarter]
      rw [show (1/4 : ℚ) * 100 = 25 by norm_num, fl64_25]
      rw [show (50 : ℚ) + 25 = 75 by norm_num, fl64_75]
      norm_num [Int.floor_eq_iff]]
    decide
  · rw [claimedBatchProgress, show ([10, 50] : List Nat).sum = 60 from rfl]
    push_cast
    rw [show (60 : ℚ) / 2 = 30 by norm_num]
    rw [show ⌊(30 : ℚ)⌋ = 30 by norm_num [Int.floor_eq_iff]]
    decide

/-- C7 (amended): each batch progress value derived from a child event is
computed from the reporting child's 0-based index and its own progress
alone — the binary64 evaluation of
`int((url_index/total)*100 + (url_progress/100)*(1/total)*100)` clamped
at 99 — not from the sum of all child progresses.  For reachable inputs
(index below the total, total at most 5, progress at most 100) it equals
`floor((100*url_index + url_progress)/total)` clamped at 99 whenever the
total does not divide `100*url_index + url_progress`, and otherwise can
fall exactly one below it through float rounding: at index 1 of 3 with
progress 35 the program publishes 44, not `floor(135/3) = 45`. -/
theorem C7_batch_progress_amended (urlIndex totalUrls urlProgress : Nat)
    (ht0 : 0 < totalUrls) (ht5 : totalUrls ≤ 5)
    (hi : urlIndex < totalUrls) (hp : urlProgress ≤ 100) :
    (min (((100 * urlIndex + urlProgress) / totalUrls : ℕ) : ℤ) 99 - 1 ≤
        publishedBatchProgress urlIndex totalUrls urlProgress ∧
      publishedBatchProgress urlIndex totalUrls urlProgress ≤
        min (((100 * urlIndex + urlProgress) / totalUrls : ℕ) : ℤ) 99) ∧
    (¬ totalUrls ∣ 100 * urlIndex + urlProgress →
      publishedBatchProgress urlIndex totalUrls urlProgress =
        min (((100 * urlIndex + urlProgress) / totalUrls : ℕ) : ℤ) 99) ∧
    publishedBatchProgress 1 3 35 = 44 := by
  obtain ⟨hl, hu, hd⟩ := aggregate_floor urlIndex totalUrls urlProgress ht0 ht5 hi hp
  rw [publishedBatchProgress]
  refine ⟨⟨by omega, by omega⟩, fun hnd => ?_, ?_⟩
  · rw [hd hnd]
  · rw [publishedBatchProgress, aggregate_1_3_35]
    decide

/-- C7 (witness): a five-URL batch, second child at progress 47
(5 does not divide 147), run through the amended theorem. -/
theorem C7_batch_progress_witness :
    (0 < 5 ∧ 5 ≤ 5 ∧ 1 < 5 ∧ 47 ≤ 100) ∧
    publishedBatchProgress 1 5 47 = min (((100 * 1 + 47) / 5 : ℕ) : ℤ) 99 :=
  ⟨⟨by decide, by decide, by decide, by decide⟩,
   (C7_batch_progress_amended 1 5 47 (by decide) (by decide) (by decide)
     (by decide)).2.1 (by decide)⟩

end Aura
